import Mathlib

/-
Shallow embedding of the CHIP-8 interpreter core (src/src/chip8.cpp,
src/include/chip8.h).  Machine words are modelled as Nat with explicit
modular reduction where the C++ unsigned types wrap: registers and memory
cells are 8-bit, pc / index / stack slots are 16-bit, sp is 8-bit.
Arrays (registers, memory, stack, keypad, video) are modelled as total
maps Nat -> Nat so that the out-of-bounds accesses the source can perform
are visible as accesses at indices beyond the declared capacity.
-/

/-- Pointwise update of a total map, the model of a C++ array store. -/
def upd (f : Nat → Nat) (i v : Nat) : Nat → Nat :=
  fun j => if j = i then v else f j

/-- Machine state of the interpreter, mirroring the fields of class Chip8:
registers[16] (8-bit), memory[4096] (8-bit), the 16-bit index register,
the 16-bit pc, stack[16] (16-bit slots), the 8-bit sp, the two timers,
keypad[16] (nonzero = pressed, as in the C++ uint8_t truthiness test),
video[64*32] (cells 0 or 0xFFFFFFFF), and the current 16-bit opcode. -/
structure Chip8 where
  registers : Nat → Nat
  memory : Nat → Nat
  index : Nat
  pc : Nat
  stack : Nat → Nat
  sp : Nat
  delayTimer : Nat
  soundTimer : Nat
  keypad : Nat → Nat
  video : Nat → Nat
  opcode : Nat

/-- Operand x of the current opcode: (opcode AND 0x0F00) >> 8. -/
def opVx (s : Chip8) : Nat := s.opcode / 256 % 16

/-- Operand y of the current opcode: (opcode AND 0x00F0) >> 4. -/
def opVy (s : Chip8) : Nat := s.opcode / 16 % 16

/-- Operand nnn of the current opcode: opcode AND 0x0FFF. -/
def opNNN (s : Chip8) : Nat := s.opcode % 4096

/-- Operand n of the current opcode: opcode AND 0x000F. -/
def opN (s : Chip8) : Nat := s.opcode % 16

/-- FONTSET_START_ADDRESS = 0x50 from chip8.cpp. -/
def FONTSET_START_ADDRESS : Nat := 80

/-- VIDEO_WIDTH as declared in chip8.cpp line 41 (value 32). -/
def VIDEO_WIDTH : Nat := 32

/-- VIDEO_HEIGHT as declared in chip8.cpp line 42 (value 64). -/
def VIDEO_HEIGHT : Nat := 64

/-- OP_00EE (return): decrement sp (8-bit wraparound), then pc := stack[sp]. -/
def OP_00EE (s : Chip8) : Chip8 :=
  let sp1 := (s.sp + 255) % 256
  { s with sp := sp1, pc := s.stack sp1 }

/-- OP_2nnn (call): the source executes stack[pc] = pc (line 124), then
increments sp (8-bit) and sets pc to the low 12 bits of the opcode. -/
def OP_2nnn (s : Chip8) : Chip8 :=
  { s with stack := upd s.stack s.pc s.pc,
           sp := (s.sp + 1) % 256,
           pc := opNNN s }

/-- OP_8xy4 (add with carry): sum = registers[Vx] + registers[Vy] widened;
registers[0xF] := 1 if sum > 255 else 0; then registers[Vx] := sum AND 0xFF.
The flag write happens before the Vx write, as in the source. -/
def OP_8xy4 (s : Chip8) : Chip8 :=
  let sum := s.registers (opVx s) + s.registers (opVy s)
  let r1 := upd s.registers 15 (if 255 < sum then 1 else 0)
  { s with registers := upd r1 (opVx s) (sum % 256) }

/-- OP_8xy5 (subtract): registers[0xF] := 1 if registers[Vx] > registers[Vy]
else 0; then registers[Vx] -= registers[Vy] (8-bit wraparound).  The
subtraction re-reads the register file after the flag write, as in the
source (lines 277-290). -/
def OP_8xy5 (s : Chip8) : Chip8 :=
  let r1 := upd s.registers 15
    (if s.registers (opVy s) < s.registers (opVx s) then 1 else 0)
  { s with registers := upd r1 (opVx s) ((r1 (opVx s) + 256 - r1 (opVy s)) % 256) }

/-- OP_8xyE (shift left): registers[0xF] := registers[Vx] AND 0x80 (raw
masked byte); then registers[Vx] <<= 1 (8-bit wraparound), re-reading the
register file after the flag write as in the source (lines 334-337). -/
def OP_8xyE (s : Chip8) : Chip8 :=
  let r1 := upd s.registers 15 (s.registers (opVx s) &&& 128)
  { s with registers := upd r1 (opVx s) (r1 (opVx s) * 2 % 256) }

/-- Framebuffer cell index computed by OP_Dxyn for a given wrapped origin,
row and column: (xPos + col) + (yPos + row) * VIDEO_WIDTH (line 418). -/
def dxynIndex (xPos yPos row col : Nat) : Nat :=
  xPos + col + (yPos + row) * VIDEO_WIDTH

/-- One column step of the OP_Dxyn inner loop: if the sprite bit
spriteByte AND (0x80 >> col) is set, record a collision when the target
cell is 0xFFFFFFFF and XOR the cell with 0xFFFFFFFF.  The accumulator
carries (collision flag, video map). -/
def drawPixel (xPos yPos row spriteByte col : Nat)
    (acc : Nat × (Nat → Nat)) : Nat × (Nat → Nat) :=
  let spritePixel := spriteByte &&& (128 >>> col)
  let idx := dxynIndex xPos yPos row col
  if spritePixel ≠ 0 then
    (if acc.2 idx = 4294967295 then 1 else acc.1,
     upd acc.2 idx (acc.2 idx ^^^ 4294967295))
  else acc

/-- OP_Dxyn (draw sprite): wrap the origin as registers[Vx] % VIDEO_WIDTH,
registers[Vy] % VIDEO_HEIGHT, clear the collision flag, then for each
row < n and col < 8 process the sprite bit of memory[index + row],
finally store the collision flag in registers[0xF]. -/
def OP_Dxyn (s : Chip8) : Chip8 :=
  let xPos := s.registers (opVx s) % VIDEO_WIDTH
  let yPos := s.registers (opVy s) % VIDEO_HEIGHT
  let res := (List.range (opN s)).foldl
    (fun acc row =>
      (List.range 8).foldl
        (fun a col => drawPixel xPos yPos row (s.memory (s.index + row)) col a)
        acc)
    (0, s.video)
  { s with registers := upd s.registers 15 res.1, video := res.2 }

/-- OP_Fx0A (blocking key wait): the source's 16-branch else-if chain over
keypad[0] .. keypad[15]; the first nonzero entry stores its key number in
registers[Vx]; if none is pressed, pc -= 2 (16-bit wraparound). -/
def OP_Fx0A (s : Chip8) : Chip8 :=
  if s.keypad 0 ≠ 0 then { s with registers := upd s.registers (opVx s) 0 }
  else if s.keypad 1 ≠ 0 then { s with registers := upd s.registers (opVx s) 1 }
  else if s.keypad 2 ≠ 0 then { s with registers := upd s.registers (opVx s) 2 }
  else if s.keypad 3 ≠ 0 then { s with registers := upd s.registers (opVx s) 3 }
  else if s.keypad 4 ≠ 0 then { s with registers := upd s.registers (opVx s) 4 }
  else if s.keypad 5 ≠ 0 then { s with registers := upd s.registers (opVx s) 5 }
  else if s.keypad 6 ≠ 0 then { s with registers := upd s.registers (opVx s) 6 }
  else if s.keypad 7 ≠ 0 then { s with registers := upd s.registers (opVx s) 7 }
  else if s.keypad 8 ≠ 0 then { s with registers := upd s.registers (opVx s) 8 }
  else if s.keypad 9 ≠ 0 then { s with registers := upd s.registers (opVx s) 9 }
  else if s.keypad 10 ≠ 0 then { s with registers := upd s.registers (opVx s) 10 }
  else if s.keypad 11 ≠ 0 then { s with registers := upd s.registers (opVx s) 11 }
  else if s.keypad 12 ≠ 0 then { s with registers := upd s.registers (opVx s) 12 }
  else if s.keypad 13 ≠ 0 then { s with registers := upd s.registers (opVx s) 13 }
  else if s.keypad 14 ≠ 0 then { s with registers := upd s.registers (opVx s) 14 }
  else if s.keypad 15 ≠ 0 then { s with registers := upd s.registers (opVx s) 15 }
  else { s with pc := (s.pc + 65534) % 65536 }

/-- OP_Fx29 (font address): index := FONTSET_START_ADDRESS + 5 * registers[Vx]
(the source applies no masking to the register value). -/
def OP_Fx29 (s : Chip8) : Chip8 :=
  { s with index := FONTSET_START_ADDRESS + 5 * s.registers (opVx s) }

/-- OP_Fx33 (BCD): memory[index+2] := value % 10; value /= 10;
memory[index+1] := value % 10; memory[index] := value % 10.  The source
performs only the single division (lines 612-620). -/
def OP_Fx33 (s : Chip8) : Chip8 :=
  let value := s.registers (opVx s)
  let m1 := upd s.memory (s.index + 2) (value % 10)
  let value1 := value / 10
  let m2 := upd m1 (s.index + 1) (value1 % 10)
  let m3 := upd m2 s.index (value1 % 10)
  { s with memory := m3 }

/-- All-zero machine state used as the base for concrete test states. -/
def zeroState : Chip8 where
  registers := fun _ => 0
  memory := fun _ => 0
  index := 0
  pc := 0
  stack := fun _ => 0
  sp := 0
  delayTimer := 0
  soundTimer := 0
  keypad := fun _ => 0
  video := fun _ => 0
  opcode := 0

/-- Concrete state for the call/return claims: pc = 0x200, sp = 0, empty
stack, opcode 0x2345 (call 0x345). -/
def s1c : Chip8 := { zeroState with pc := 512, opcode := 9029 }

/-- C1: the claim says OP_2nnn stores pc into stack[sp].  Evaluating the
code at pc = 512, sp = 0: slot 0 (the sp slot) keeps its old value 0, the
write lands at slot 512 (far outside the 16-entry stack), sp becomes 1 and
pc becomes 0x345 = 837.  The claim is false on the code. -/
theorem C1_call_push_misindexes_stack :
    (OP_2nnn s1c).stack 0 = 0 ∧
    (OP_2nnn s1c).stack 512 = 512 ∧
    (OP_2nnn s1c).sp = 1 ∧
    (OP_2nnn s1c).pc = 837 ∧
    s1c.pc = 512 := by
  decide

/-- C2: the claim says 2nnn followed by 00EE restores pc to its value at
the 2nnn (here 512).  Evaluating the code: 00EE pops stack[0], which the
buggy push never wrote, so pc ends at 0, not 512. -/
theorem C2_call_return_not_identity :
    s1c.pc = 512 ∧ (OP_00EE (OP_2nnn s1c)).pc = 0 := by
  decide

/-- Concrete state for C3: registers[5] = 157, index = 768, opcode 0xF533. -/
def s3c : Chip8 :=
  { zeroState with registers := upd zeroState.registers 5 157,
                   index := 768, opcode := 62771 }

/-- C3: the claim says Fx33 on 157 writes 1,5,7 at index, index+1, index+2.
Evaluating the code: the missing second division leaves memory[index] = 5
(the tens digit again), so the code writes 5,5,7. -/
theorem C3_fx33_hundreds_digit_wrong :
    s3c.registers 5 = 157 ∧
    (OP_Fx33 s3c).memory 768 = 5 ∧
    (OP_Fx33 s3c).memory 769 = 5 ∧
    (OP_Fx33 s3c).memory 770 = 7 := by
  decide

/-- Concrete state for C4: registers[0] = 40, registers[1] = 0, index = 768,
memory[768] = 0x80 (leftmost sprite bit set), opcode 0xD011 (x=0, y=1, n=1). -/
def s4c : Chip8 :=
  { zeroState with registers := upd zeroState.registers 0 40,
                   index := 768,
                   memory := upd zeroState.memory 768 128,
                   opcode := 53265 }

/-- C4: the claim says the sprite origin is (registers[x] mod 64,
registers[y] mod 32) on a 64-wide row-major framebuffer, which would light
cell 40 here.  Evaluating the code: VIDEO_WIDTH = 32 and VIDEO_HEIGHT = 64
are swapped, so the origin is (40 mod 32, 0 mod 64) = (8, 0) with row
stride 32, and cell 8 is lit while cell 40 stays off. -/
theorem C4_draw_uses_swapped_dimensions :
    s4c.registers 0 = 40 ∧ s4c.registers 1 = 0 ∧
    (OP_Dxyn s4c).video 8 = 4294967295 ∧
    (OP_Dxyn s4c).video 40 = 0 := by
  decide

/-- Concrete state for the C5 counterexample: x = 15, y = 0 (opcode 0x8F04),
registers[15] = 5, registers[0] = 3. -/
def s5c : Chip8 :=
  { zeroState with registers := upd (upd zeroState.registers 0 3) 15 5,
                   opcode := 36612 }

/-- C5 counterexample: with x = 15, a = 5, b = 3 the claim requires
registers[15] = 0 after 8xy4 (since 5 + 3 is not greater than 255), but the
code overwrites the just-written carry flag with the sum, leaving 8. -/
theorem C5_counterexample :
    s5c.registers 15 = 5 ∧ s5c.registers 0 = 3 ∧ 5 + 3 ≤ 255 ∧
    (OP_8xy4 s5c).registers 15 = 8 ∧
    ¬ (OP_8xy4 s5c).registers 15 = 0 := by
  decide

/-- C5 amended: for every state and 8-bit values a, b with x ≠ 15,
executing 8xy4 yields registers[x] = (a + b) mod 256 and registers[15] = 1
exactly when a + b > 255 (0 otherwise).  When x = 15 the final write of the
sum overwrites the carry flag, so that case is excluded. -/
theorem C5_amended_add_with_carry (s : Chip8) (a b : Nat)
    (hx : opVx s ≠ 15)
    (ha : s.registers (opVx s) = a) (hb : s.registers (opVy s) = b)
    (ha8 : a < 256) (hb8 : b < 256) :
    (OP_8xy4 s).registers (opVx s) = (a + b) % 256 ∧
    (OP_8xy4 s).registers 15 = (if 255 < a + b then 1 else 0) := by
  unfold OP_8xy4
  constructor
  · simp [upd, ha, hb]
  · simp [upd, ha, hb, Ne.symm hx]

/-- Concrete state for the C5 witness: x = 2, y = 3 (opcode 0x8234),
registers[2] = 200, registers[3] = 100. -/
def s5w : Chip8 :=
  { zeroState with registers := upd (upd zeroState.registers 2 200) 3 100,
                   opcode := 33332 }

/-- C5 witness: the amended theorem at registers[2] = 200, registers[3] = 100. -/
theorem C5_amended_witness :
    (OP_8xy4 s5w).registers (opVx s5w) = (200 + 100) % 256 ∧
    (OP_8xy4 s5w).registers 15 = (if 255 < 200 + 100 then 1 else 0) :=
  C5_amended_add_with_carry s5w 200 100 (by decide) (by decide) (by decide)
    (by decide) (by decide)

/-- Concrete state for the C6 counterexample: x = 0, y = 15 (opcode 0x80F5),
registers[0] = 10, registers[15] = 3. -/
def s6c : Chip8 :=
  { zeroState with registers := upd (upd zeroState.registers 0 10) 15 3,
                   opcode := 33013 }

/-- C6 counterexample: with x = 0, y = 15, a = 10, b = 3 the claim requires
registers[0] = (10 - 3) mod 256 = 7 after 8xy5, but the code writes the
NOT-borrow flag into registers[15] before subtracting and then re-reads
registers[15], computing 10 - 1 = 9. -/
theorem C6_counterexample :
    s6c.registers 0 = 10 ∧ s6c.registers 15 = 3 ∧
    (OP_8xy5 s6c).registers 0 = 9 ∧
    ¬ (OP_8xy5 s6c).registers 0 = (10 - 3) % 256 := by
  decide

/-- C6 amended: for every state and 8-bit values a, b with x ≠ 15 and
y ≠ 15, executing 8xy5 yields registers[15] = 1 exactly when a > b and
registers[x] = (a - b) mod 256 (as the two's-complement (a + 256 - b) mod
256).  When x = 15 or y = 15 the flag write interferes with the
subtraction, so those cases are excluded. -/
theorem C6_amended_sub_not_borrow (s : Chip8) (a b : Nat)
    (hx : opVx s ≠ 15) (hy : opVy s ≠ 15)
    (ha : s.registers (opVx s) = a) (hb : s.registers (opVy s) = b)
    (ha8 : a < 256) (hb8 : b < 256) :
    (OP_8xy5 s).registers (opVx s) = (a + 256 - b) % 256 ∧
    (OP_8xy5 s).registers 15 = (if b < a then 1 else 0) := by
  unfold OP_8xy5
  constructor
  · simp [upd, ha, hb, hx, hy]
  · simp [upd, ha, hb, Ne.symm hx]

/-- Concrete state for the C6 witness: x = 1, y = 2 (opcode 0x8125),
registers[1] = 5, registers[2] = 9. -/
def s6w : Chip8 :=
  { zeroState with registers := upd (upd zeroState.registers 1 5) 2 9,
                   opcode := 33061 }

/-- C6 witness: the amended theorem at registers[1] = 5, registers[2] = 9. -/
theorem C6_amended_witness :
    (OP_8xy5 s6w).registers (opVx s6w) = (5 + 256 - 9) % 256 ∧
    (OP_8xy5 s6w).registers 15 = (if 9 < 5 then 1 else 0) :=
  C6_amended_sub_not_borrow s6w 5 9 (by decide) (by decide) (by decide)
    (by decide) (by decide) (by decide)

/-- Concrete state for the C7 counterexample: x = 15 (opcode 0x8F0E),
registers[15] = 1. -/
def s7c : Chip8 :=
  { zeroState with registers := upd zeroState.registers 15 1,
                   opcode := 36622 }

/-- C7 counterexample: with x = 15 and registers[15] = 1 the claim requires
registers[x] = (1 << 1) mod 256 = 2 after 8xyE, but the code first writes
the masked high bit (0) into registers[15] and then shifts that value,
leaving 0. -/
theorem C7_counterexample :
    s7c.registers 15 = 1 ∧
    (OP_8xyE s7c).registers 15 = 0 ∧
    ¬ (OP_8xyE s7c).registers 15 = 1 * 2 % 256 := by
  decide

/-- C7 amended: for every state and 8-bit value a with x ≠ 15, executing
8xyE sets registers[15] to the raw masked byte a AND 0x80 (taken before the
shift, not normalized to 0/1) and registers[x] to (a << 1) mod 256.  When
x = 15 the shift operates on the freshly written flag, so that case is
excluded. -/
theorem C7_amended_shift_left (s : Chip8) (a : Nat)
    (hx : opVx s ≠ 15)
    (ha : s.registers (opVx s) = a) (ha8 : a < 256) :
    (OP_8xyE s).registers 15 = (a &&& 128) ∧
    (OP_8xyE s).registers (opVx s) = a * 2 % 256 := by
  unfold OP_8xyE
  constructor
  · simp [upd, ha, Ne.symm hx]
  · simp [upd, ha, hx]

/-- Concrete state for the C7 witness: x = 6 (opcode 0x860E),
registers[6] = 200. -/
def s7w : Chip8 :=
  { zeroState with registers := upd zeroState.registers 6 200,
                   opcode := 34318 }

/-- C7 witness: the amended theorem at registers[6] = 200. -/
theorem C7_amended_witness :
    (OP_8xyE s7w).registers 15 = (200 &&& 128) ∧
    (OP_8xyE s7w).registers (opVx s7w) = 200 * 2 % 256 :=
  C7_amended_shift_left s7w 200 (by decide) (by decide) (by decide)

/-- Concrete state for the C9 counterexample: x = 4 (opcode 0xF429),
registers[4] = 16. -/
def s9c : Chip8 :=
  { zeroState with registers := upd zeroState.registers 4 16,
                   opcode := 62505 }

/-- C9 counterexample: with registers[4] = 16 the claim requires
index = 0x50 + 5 * (16 mod 16) = 80 after Fx29, but the code applies no
masking and computes 80 + 5 * 16 = 160. -/
theorem C9_counterexample :
    s9c.registers 4 = 16 ∧
    (OP_Fx29 s9c).index = 160 ∧
    ¬ (OP_Fx29 s9c).index = 80 + 5 * (16 % 16) := by
  decide

/-- C9 amended: for every state and register value a, executing Fx29 sets
index = 0x50 + 5 * a using the full register value; the source performs no
masking to a single hex digit. -/
theorem C9_amended_font_index_unmasked (s : Chip8) (a : Nat)
    (ha : s.registers (opVx s) = a) :
    (OP_Fx29 s).index = 80 + 5 * a := by
  unfold OP_Fx29 FONTSET_START_ADDRESS
  rw [ha]

/-- Concrete state for the C9 witness: x = 3 (opcode 0xF329),
registers[3] = 7. -/
def s9w : Chip8 :=
  { zeroState with registers := upd zeroState.registers 3 7,
                   opcode := 62249 }

/-- C9 witness: the amended theorem at registers[3] = 7. -/
theorem C9_amended_witness : (OP_Fx29 s9w).index = 80 + 5 * 7 :=
  C9_amended_font_index_unmasked s9w 7 (by decide)

/-- Concrete state for C10: registers[0] = 31, registers[1] = 63,
index = 768, memory[768] = 0xFF, opcode 0xD011 (x=0, y=1, n=1). -/
def s10c : Chip8 :=
  { zeroState with registers := upd (upd zeroState.registers 0 31) 1 63,
                   index := 768,
                   memory := upd zeroState.memory 768 255,
                   opcode := 53265 }

/-- C10: the claim says every framebuffer index computed and accessed by
Dxyn is below 64 * 32 = 2048.  Evaluating the code with registers[x] = 31,
registers[y] = 63, n = 1: the wrapped origin is (31 mod 32, 63 mod 64) =
(31, 63), and row 0 column 7 computes index 31 + 7 + 63 * 32 = 2054, not
below 2048; the sprite bit there is set, so the draw actually writes the
out-of-bounds cell 2054. -/
theorem C10_draw_index_out_of_bounds :
    dxynIndex (s10c.registers 0 % VIDEO_WIDTH) (s10c.registers 1 % VIDEO_HEIGHT) 0 7 = 2054 ∧
    ¬ (2054 < 64 * 32) ∧
    (OP_Dxyn s10c).video 2054 = 4294967295 ∧
    s10c.video 2054 = 0 := by
  decide

/-- Case analysis of the OP_Fx0A else-if chain: either some key i < 16 is
pressed with every lower-numbered key unpressed and the operation stores i
in registers[Vx], or no key is pressed and pc is decremented by 2. -/
lemma fx0a_cases (s : Chip8) :
    (∃ i, i < 16 ∧ s.keypad i ≠ 0 ∧ (∀ j, j < i → s.keypad j = 0) ∧
      OP_Fx0A s = { s with registers := upd s.registers (opVx s) i }) ∨
    ((∀ k, k < 16 → s.keypad k = 0) ∧
      OP_Fx0A s = { s with pc := (s.pc + 65534) % 65536 }) := by
  by_cases h0 : s.keypad 0 ≠ 0
  · refine Or.inl ⟨0, by omega, h0, fun j hj => absurd hj (Nat.not_lt_zero j), ?_⟩
    unfold OP_Fx0A
    rw [if_pos h0]
  rw [not_ne_iff] at h0
  by_cases h1 : s.keypad 1 ≠ 0
  · refine Or.inl ⟨1, by omega, h1, ?_, ?_⟩
    · intro j hj
      interval_cases j <;> assumption
    · unfold OP_Fx0A
      rw [if_neg (not_ne_iff.mpr h0), if_pos h1]
  rw [not_ne_iff] at h1
  by_cases h2 : s.keypad 2 ≠ 0
  · refine Or.inl ⟨2, by omega, h2, ?_, ?_⟩
    · intro j hj
      interval_cases j <;> assumption
    · unfold OP_Fx0A
      rw [if_neg (not_ne_iff.mpr h0), if_neg (not_ne_iff.mpr h1), if_pos h2]
  rw [not_ne_iff] at h2
  by_cases h3 : s.keypad 3 ≠ 0
  · refine Or.inl ⟨3, by omega, h3, ?_, ?_⟩
    · intro j hj
      interval_cases j <;> assumption
    · unfold OP_Fx0A
      rw [if_neg (not_ne_iff.mpr h0), if_neg (not_ne_iff.mpr h1),
        if_neg (not_ne_iff.mpr h2), if_pos h3]
  rw [not_ne_iff] at h3
  by_cases h4 : s.keypad 4 ≠ 0
  · refine Or.inl ⟨4, by omega, h4, ?_, ?_⟩
    · intro j hj
      interval_cases j <;> assumption
    · unfold OP_Fx0A
      rw [if_neg (not_ne_iff.mpr h0), if_neg (not_ne_iff.mpr h1),
        if_neg (not_ne_iff.mpr h2), if_neg (not_ne_iff.mpr h3), if_pos h4]
  rw [not_ne_iff] at h4
  by_cases h5 : s.keypad 5 ≠ 0
  · refine Or.inl ⟨5, by omega, h5, ?_, ?_⟩
    · intro j hj
      interval_cases j <;> assumption
    · unfold OP_Fx0A
      rw [if_neg (not_ne_iff.mpr h0), if_neg (not_ne_iff.mpr h1),
        if_neg (not_ne_iff.mpr h2), if_neg (not_ne_iff.mpr h3),
        if_neg (not_ne_iff.mpr h4), if_pos h5]
  rw [not_ne_iff] at h5
  by_cases h6 : s.keypad 6 ≠ 0
  · refine Or.inl ⟨6, by omega, h6, ?_, ?_⟩
    · intro j hj
      interval_cases j <;> assumption
    · unfold OP_Fx0A
      rw [if_neg (not_ne_iff.mpr h0), if_neg (not_ne_iff.mpr h1),
        if_neg (not_ne_iff.mpr h2), if_neg (not_ne_iff.mpr h3),
        if_neg (not_ne_iff.mpr h4), if_neg (not_ne_iff.mpr h5), if_pos h6]
  rw [not_ne_iff] at h6
  by_cases h7 : s.keypad 7 ≠ 0
  · refine Or.inl ⟨7, by omega, h7, ?_, ?_⟩
    · intro j hj
      interval_cases j <;> assumption
    · unfold OP_Fx0A
      rw [if_neg (not_ne_iff.mpr h0), if_neg (not_ne_iff.mpr h1),
        if_neg (not_ne_iff.mpr h2), if_neg (not_ne_iff.mpr h3),
        if_neg (not_ne_iff.mpr h4), if_neg (not_ne_iff.mpr h5),
        if_neg (not_ne_iff.mpr h6), if_pos h7]
  rw [not_ne_iff] at h7
  by_cases h8 : s.keypad 8 ≠ 0
  · refine Or.inl ⟨8, by omega, h8, ?_, ?_⟩
    · intro j hj
      interval_cases j <;> assumption
    · unfold OP_Fx0A
      rw [if_neg (not_ne_iff.mpr h0), if_neg (not_ne_iff.mpr h1),
        if_neg (not_ne_iff.mpr h2), if_neg (not_ne_iff.mpr h3),
        if_neg (not_ne_iff.mpr h4), if_neg (not_ne_iff.mpr h5),
        if_neg (not_ne_iff.mpr h6), if_neg (not_ne_iff.mpr h7), if_pos h8]
  rw [not_ne_iff] at h8
  by_cases h9 : s.keypad 9 ≠ 0
  · refine Or.inl ⟨9, by omega, h9, ?_, ?_⟩
    · intro j hj
      interval_cases j <;> assumption
    · unfold OP_Fx0A
      rw [if_neg (not_ne_iff.mpr h0), if_neg (not_ne_iff.mpr h1),
        if_neg (not_ne_iff.mpr h2), if_neg (not_ne_iff.mpr h3),
        if_neg (not_ne_iff.mpr h4), if_neg (not_ne_iff.mpr h5),
        if_neg (not_ne_iff.mpr h6), if_neg (not_ne_iff.mpr h7),
        if_neg (not_ne_iff.mpr h8), if_pos h9]
  rw [not_ne_iff] at h9
  by_cases h10 : s.keypad 10 ≠ 0
  · refine Or.inl ⟨10, by omega, h10, ?_, ?_⟩
    · intro j hj
      interval_cases j <;> assumption
    · unfold OP_Fx0A
      rw [if_neg (not_ne_iff.mpr h0), if_neg (not_ne_iff.mpr h1),
        if_neg (not_ne_iff.mpr h2), if_neg (not_ne_iff.mpr h3),
        if_neg (not_ne_iff.mpr h4), if_neg (not_ne_iff.mpr h5),
        if_neg (not_ne_iff.mpr h6), if_neg (not_ne_iff.mpr h7),
        if_neg (not_ne_iff.mpr h8), if_neg (not_ne_iff.mpr h9), if_pos h10]
  rw [not_ne_iff] at h10
  by_cases h11 : s.keypad 11 ≠ 0
  · refine Or.inl ⟨11, by omega, h11, ?_, ?_⟩
    · intro j hj
      interval_cases j <;> assumption
    · unfold OP_Fx0A
      rw [if_neg (not_ne_iff.mpr h0), if_neg (not_ne_iff.mpr h1),
        if_neg (not_ne_iff.mpr h2), if_neg (not_ne_iff.mpr h3),
        if_neg (not_ne_iff.mpr h4), if_neg (not_ne_iff.mpr h5),
        if_neg (not_ne_iff.mpr h6), if_neg (not_ne_iff.mpr h7),
        if_neg (not_ne_iff.mpr h8), if_neg (not_ne_iff.mpr h9),
        if_neg (not_ne_iff.mpr h10), if_pos h11]
  rw [not_ne_iff] at h11
  by_cases h12 : s.keypad 12 ≠ 0
  · refine Or.inl ⟨12, by omega, h12, ?_, ?_⟩
    · intro j hj
      interval_cases j <;> assumption
    · unfold OP_Fx0A
      rw [if_neg (not_ne_iff.mpr h0), if_neg (not_ne_iff.mpr h1),
        if_neg (not_ne_iff.mpr h2), if_neg (not_ne_iff.mpr h3),
        if_neg (not_ne_iff.mpr h4), if_neg (not_ne_iff.mpr h5),
        if_neg (not_ne_iff.mpr h6), if_neg (not_ne_iff.mpr h7),
        if_neg (not_ne_iff.mpr h8), if_neg (not_ne_iff.mpr h9),
        if_neg (not_ne_iff.mpr h10), if_neg (not_ne_iff.mpr h11), if_pos h12]
  rw [not_ne_iff] at h12
  by_cases h13 : s.keypad 13 ≠ 0
  · refine Or.inl ⟨13, by omega, h13, ?_, ?_⟩
    · intro j hj
      interval_cases j <;> assumption
    · unfold OP_Fx0A
      rw [if_neg (not_ne_iff.mpr h0), if_neg (not_ne_iff.mpr h1),
        if_neg (not_ne_iff.mpr h2), if_neg (not_ne_iff.mpr h3),
        if_neg (not_ne_iff.mpr h4), if_neg (not_ne_iff.mpr h5),
        if_neg (not_ne_iff.mpr h6), if_neg (not_ne_iff.mpr h7),
        if_neg (not_ne_iff.mpr h8), if_neg (not_ne_iff.mpr h9),
        if_neg (not_ne_iff.mpr h10), if_neg (not_ne_iff.mpr h11),
        if_neg (not_ne_iff.mpr h12), if_pos h13]
  rw [not_ne_iff] at h13
  by_cases h14 : s.keypad 14 ≠ 0
  · refine Or.inl ⟨14, by omega, h14, ?_, ?_⟩
    · intro j hj
      interval_cases j <;> assumption
    · unfold OP_Fx0A
      rw [if_neg (not_ne_iff.mpr h0), if_neg (not_ne_iff.mpr h1),
        if_neg (not_ne_iff.mpr h2), if_neg (not_ne_iff.mpr h3),
        if_neg (not_ne_iff.mpr h4), if_neg (not_ne_iff.mpr h5),
        if_neg (not_ne_iff.mpr h6), if_neg (not_ne_iff.mpr h7),
        if_neg (not_ne_iff.mpr h8), if_neg (not_ne_iff.mpr h9),
        if_neg (not_ne_iff.mpr h10), if_neg (not_ne_iff.mpr h11),
        if_neg (not_ne_iff.mpr h12), if_neg (not_ne_iff.mpr h13), if_pos h14]
  rw [not_ne_iff] at h14
  by_cases h15 : s.keypad 15 ≠ 0
  · refine Or.inl ⟨15, by omega, h15, ?_, ?_⟩
    · intro j hj
      interval_cases j <;> assumption
    · unfold OP_Fx0A
      rw [if_neg (not_ne_iff.mpr h0), if_neg (not_ne_iff.mpr h1),
        if_neg (not_ne_iff.mpr h2), if_neg (not_ne_iff.mpr h3),
        if_neg (not_ne_iff.mpr h4), if_neg (not_ne_iff.mpr h5),
        if_neg (not_ne_iff.mpr h6), if_neg (not_ne_iff.mpr h7),
        if_neg (not_ne_iff.mpr h8), if_neg (not_ne_iff.mpr h9),
        if_neg (not_ne_iff.mpr h10), if_neg (not_ne_iff.mpr h11),
        if_neg (not_ne_iff.mpr h12), if_neg (not_ne_iff.mpr h13),
        if_neg (not_ne_iff.mpr h14), if_pos h15]
  rw [not_ne_iff] at h15
  refine Or.inr ⟨?_, ?_⟩
  · intro k hk
    interval_cases k <;> assumption
  · unfold OP_Fx0A
    rw [if_neg (not_ne_iff.mpr h0), if_neg (not_ne_iff.mpr h1),
      if_neg (not_ne_iff.mpr h2), if_neg (not_ne_iff.mpr h3),
      if_neg (not_ne_iff.mpr h4), if_neg (not_ne_iff.mpr h5),
      if_neg (not_ne_iff.mpr h6), if_neg (not_ne_iff.mpr h7),
      if_neg (not_ne_iff.mpr h8), if_neg (not_ne_iff.mpr h9),
      if_neg (not_ne_iff.mpr h10), if_neg (not_ne_iff.mpr h11),
      if_neg (not_ne_iff.mpr h12), if_neg (not_ne_iff.mpr h13),
      if_neg (not_ne_iff.mpr h14), if_neg (not_ne_iff.mpr h15)]

/-- C8: for every machine state and keypad snapshot, Fx0A with at least one
key pressed keeps pc unchanged, leaves every register other than Vx
unchanged, and stores in registers[Vx] the lowest-numbered pressed key
(the pressed key below which every key is unpressed); with no key pressed
it decrements pc by 2 (16-bit wraparound, canceling the implicit advance)
and leaves all registers unchanged. -/
theorem C8_fx0a_blocking_key_wait (s : Chip8) :
    ((∃ k, k < 16 ∧ s.keypad k ≠ 0) →
      (OP_Fx0A s).pc = s.pc ∧
      (∀ i, i ≠ opVx s → (OP_Fx0A s).registers i = s.registers i) ∧
      (∃ k, k < 16 ∧ s.keypad k ≠ 0 ∧ (∀ j, j < k → s.keypad j = 0) ∧
        (OP_Fx0A s).registers (opVx s) = k)) ∧
    ((∀ k, k < 16 → s.keypad k = 0) →
      (OP_Fx0A s).pc = (s.pc + 65534) % 65536 ∧
      ∀ i, (OP_Fx0A s).registers i = s.registers i) := by
  rcases fx0a_cases s with ⟨i, hi, hkp, hmin, heq⟩ | ⟨hall, heq⟩
  · constructor
    · intro _
      refine ⟨by rw [heq], fun j hj => ?_, i, hi, hkp, hmin, ?_⟩
      · rw [heq]
        simp [upd, hj]
      · rw [heq]
        simp [upd]
    · intro hall
      exact absurd (hall i hi) hkp
  · constructor
    · rintro ⟨k, hk, hkp⟩
      exact absurd (hall k hk) hkp
    · intro _
      exact ⟨by rw [heq], fun i => by rw [heq]⟩

/-- Concrete state for the C8 witness: only key 7 pressed, x = 2
(opcode 0xF20A). -/
def s8w : Chip8 :=
  { zeroState with keypad := upd zeroState.keypad 7 1, opcode := 61962 }

/-- C8 witness: the key-wait theorem at a state with only key 7 pressed. -/
theorem C8_fx0a_witness :
    (OP_Fx0A s8w).pc = s8w.pc ∧
    (∀ i, i ≠ opVx s8w → (OP_Fx0A s8w).registers i = s8w.registers i) ∧
    (∃ k, k < 16 ∧ s8w.keypad k ≠ 0 ∧ (∀ j, j < k → s8w.keypad j = 0) ∧
      (OP_Fx0A s8w).registers (opVx s8w) = k) :=
  (C8_fx0a_blocking_key_wait s8w).1 ⟨7, by decide, by decide⟩
